import Mathlib

/-!
Shallow embedding of src/p9sk1.c: the Plan 9 p9sk1/p9sk2 mutual
authentication protocol engine (per-session phase state machine with
read/write dispatch, initialization and teardown).

External collaborators (the marshalling/encryption codec, the key store,
the ticket-issuing service, and the randomness source) are not part of
src/: they are gathered as parameters in `Env`.  Byte buffers are modelled
as `List Nat`; copying `m` bytes out of a fixed-size C array always yields
exactly `m` bytes, which `bytesFrom` captures.
-/

namespace P9SK

/-- Wire-size constants of the authsrv interface included by the source
(dat.h): challenge, DES key, ticket request, ticket and authenticator
lengths. -/
def CHALLEN : Nat := 8

/-- DES key length (authsrv interface). -/
def DESKEYLEN : Nat := 7

/-- Marshalled ticket-request length (authsrv interface). -/
def TICKREQLEN : Nat := 141

/-- Marshalled ticket length (authsrv interface). -/
def TICKETLEN : Nat := 72

/-- Marshalled authenticator length (authsrv interface). -/
def AUTHENTLEN : Nat := 13

/-- Message/purpose tags of the authsrv interface: ticket request. -/
def AuthTreq : Nat := 1

/-- Authenticator purpose tag: server-asserting. -/
def AuthAs : Nat := 66

/-- Authenticator purpose tag: client-asserting. -/
def AuthAc : Nat := 67

/-- Reading `m` bytes out of a C buffer: a fixed-size array always yields
exactly `m` bytes (bytes beyond the modelled content read as 0). -/
def bytesFrom (buf : List Nat) (m : Nat) : List Nat :=
  (buf ++ List.replicate m 0).take m

/-- Protocol variant: `s->vers` is 1 for p9sk1 (full) and 2 for p9sk2 (the
flawed simplification). -/
inductive Variant
  | full
  | flawed
  deriving DecidableEq, Repr

/-- Phase enumeration of the source plus the terminal `Established` phase
from dat.h that both terminal operations assign. -/
inductive Phase
  | CHaveChal
  | CNeedTreq
  | CHaveTicket
  | CNeedAuth
  | SNeedChal
  | SHaveTreq
  | SNeedTicket
  | SHaveAuth
  | Established
  deriving DecidableEq, Repr

/-- Ticketreq wire structure (authsrv interface); the source uses the
fields type, authid, authdom and chal. -/
structure Ticketreq where
  type : Nat
  authid : String
  authdom : String
  chal : List Nat
  hostid : String
  uid : String
  deriving DecidableEq, Repr

/-- Ticket wire structure (authsrv interface); the source uses num, cuid,
suid and key. -/
structure Ticket where
  num : Nat
  chal : List Nat
  cuid : String
  suid : String
  key : List Nat
  deriving DecidableEq, Repr

/-- Authenticator wire structure (authsrv interface); purpose tag `num`,
embedded challenge `chal`, counter `id`. -/
structure Auth where
  num : Nat
  chal : List Nat
  id : Nat
  deriving DecidableEq, Repr

/-- Key record resolved by the key store: attribute list plus private key
material (`k->attr`, `k->priv` in the source). -/
structure Key where
  attr : List (String × String)
  priv : List Nat
  deriving DecidableEq, Repr

/-- Keyinfo passed to findkey (dat.h): the attribute set of the query plus
the owning user. -/
structure Keyinfo where
  attr : List (String × String)
  user : Option String
  deriving DecidableEq, Repr

/-- Per-session `struct State` of the source. -/
structure State where
  vers : Variant
  key : Option Key
  t : Ticket
  tr : Ticketreq
  cchal : List Nat
  tbuf : List Nat
  authkey : List Nat
  secret : Option (List Nat)
  speakfor : Int
  deriving DecidableEq, Repr

/-- The `fss->ai` result record (dat.h): identity pair plus derived
secret, materialized at a terminal phase. -/
structure AuthInfo where
  cuid : String
  suid : String
  secret : Option (List Nat)
  nsecret : Nat
  deriving DecidableEq, Repr

/-- The per-session `Fsstate` of dat.h, restricted to the fields the
source reads or writes: phase, caller attributes, the result record, the
haveai flag, and the protocol-private state. -/
structure Fsstate where
  phase : Phase
  attr : List (String × String)
  ai : AuthInfo
  haveai : Bool
  ps : State
  deriving DecidableEq, Repr

/-- Return codes: RpcOk, phaseerror(...), toosmall(...) carrying the
required size, and failure(...). -/
inductive Ret
  | ok
  | phaseErr
  | tooSmall (need : Nat)
  | failure
  deriving DecidableEq, Repr

/-- Lookup of an attribute value by name (`_strfindattr`). -/
def strfindattr (attr : List (String × String)) (name : String) : Option String :=
  (attr.find? (fun p => p.1 == name)).map (fun p => p.2)

/-- Modelled from the spec: `isclient` (a dat.h helper, not in src/) — §6
role selection via the attribute named "role": 1 for client, 0 for
server, negative when the attribute is missing or unrecognized. -/
def isclient : Option String → Int
  | some s => if s = "client" then 1 else if s = "server" then 0 else -1
  | none => -1

/-- Attribute deletion (`_delattr`); `_copyattr` is the identity on the
modelled value-level attribute lists. -/
def delattr (attr : List (String × String)) (name : String) :
    List (String × String) :=
  attr.filter (fun p => p.1 ≠ name)

/-- Attribute update (`setattr`), here always used as `proto=p9sk1`. -/
def setattr (attr : List (String × String)) (name val : String) :
    List (String × String) :=
  (name, val) :: delattr attr name

/-- Modelled from the spec: `mkkeyinfo` (dat.h helper, not in src/) builds
a Keyinfo for a findkey query from an attribute list; the user field is
the session owner, which the server path immediately overwrites with
nil. -/
def mkkeyinfo (attr : List (String × String)) : Keyinfo :=
  { attr := attr, user := some "" }

/-- A findkey query as the source issues it: the Keyinfo plus the format
string and its arguments (the %q domain and the %s key prompt). -/
structure KeyQuery where
  ki : Keyinfo
  fmt : String
  dom : Option String
  prompt : Option String
  deriving DecidableEq, Repr

/-- Modelled from the spec: the Codec/Crypto collaborator (§2, §6) — the
marshal/unmarshal-with-encryption routines convTR2M, convM2TR, convM2T,
convM2A, convA2M and the 56-to-64-bit key expansion des56to64, all
external to src/ (authsrv interface). -/
structure Codec where
  convTR2M : Ticketreq → List Nat
  convM2TR : List Nat → Ticketreq
  convM2T : List Nat → List Nat → Ticket
  convM2A : List Nat → List Nat → Auth
  convA2M : Auth → List Nat → List Nat
  des56to64 : List Nat → List Nat

/-- External collaborators of the engine.  `findkey` is the KeyStore (§2);
`gettickets` is modelled from the spec (§4.5 ticket acquisition — the
function is declared in src/p9sk1.c but not defined there): given the
ticket request and the initiator's key it returns the contents the call
leaves in the global ticket buffer (two marshalled tickets), or fails.
`randChal` is the stream memrandom draws from.  `uninitKi` is the value
of the uninitialized local Keyinfo that the client-path findkey call
receives (the source never runs mkkeyinfo on that path). -/
structure Env where
  codec : Codec
  findkey : KeyQuery → Option Key
  gettickets : Ticketreq → Key → Option (List Nat)
  randChal : List Nat
  uninitKi : Keyinfo

/-- The key prompt of the p9sk1 Proto record. -/
def p9sk1keyprompt : String := "user? !password?"

/-- Protocol names of the two Proto records. -/
def protoName : Variant → String
  | .full => "p9sk1"
  | .flawed => "p9sk2"

/-- Zero value of Ticketreq (emalloc zeroes the State). -/
def zeroTicketreq : Ticketreq :=
  { type := 0, authid := "", authdom := "", chal := List.replicate CHALLEN 0,
    hostid := "", uid := "" }

/-- Zero value of Ticket. -/
def zeroTicket : Ticket :=
  { num := 0, chal := List.replicate CHALLEN 0, cuid := "", suid := "",
    key := List.replicate DESKEYLEN 0 }

/-- Zero value of Auth. -/
def zeroAuth : Auth :=
  { num := 0, chal := List.replicate CHALLEN 0, id := 0 }

/-- Freshly emalloc-ed (zeroed) State, before p9skinit fills it in. -/
def zeroState : State :=
  { vers := Variant.full, key := none, t := zeroTicket, tr := zeroTicketreq,
    cchal := List.replicate CHALLEN 0,
    tbuf := List.replicate (TICKETLEN + AUTHENTLEN) 0,
    authkey := List.replicate DESKEYLEN 0, secret := none, speakfor := 0 }

/-- Zeroed result record of a fresh Fsstate. -/
def zeroAi : AuthInfo := { cuid := "", suid := "", secret := none, nsecret := 0 }

/-- p9skinit: role resolution, version selection, and per-role/per-variant
initial phase; the server path resolves its key record, fills in the
ticket request and draws the request challenge; the flawed server also
copies that challenge into the local channel-challenge buffer. -/
def p9skinit (env : Env) (variant : Variant) (attr : List (String × String)) :
    Ret × Option Fsstate :=
  let role := isclient (strfindattr attr "role")
  if role < 0 then (Ret.failure, none)
  else if role = 1 then
    match variant with
    | Variant.full =>
        (Ret.ok, some { phase := Phase.CHaveChal, attr := attr, ai := zeroAi,
                        haveai := false,
                        ps := { zeroState with
                                  vers := Variant.full,
                                  cchal := bytesFrom env.randChal CHALLEN } })
    | Variant.flawed =>
        (Ret.ok, some { phase := Phase.CNeedTreq, attr := attr, ai := zeroAi,
                        haveai := false,
                        ps := { zeroState with vers := Variant.flawed } })
  else
    let attr2 := setattr attr "proto" "p9sk1"
    let ki : Keyinfo := { mkkeyinfo attr2 with user := none }
    match env.findkey { ki := ki, fmt := "user? dom?", dom := none, prompt := none } with
    | none => (Ret.failure, none)
    | some k =>
        let tr : Ticketreq :=
          { zeroTicketreq with
              type := AuthTreq
              authid := (strfindattr k.attr "user").getD ""
              authdom := (strfindattr k.attr "dom").getD ""
              chal := bytesFrom env.randChal CHALLEN }
        let s0 : State := { zeroState with vers := variant, key := some k, tr := tr }
        match variant with
        | Variant.full =>
            (Ret.ok, some { phase := Phase.SNeedChal, attr := attr, ai := zeroAi,
                            haveai := false, ps := s0 })
        | Variant.flawed =>
            (Ret.ok, some { phase := Phase.SHaveTreq, attr := attr, ai := zeroAi,
                            haveai := false,
                            ps := { s0 with cchal := bytesFrom tr.chal CHALLEN } })

/-- Result of p9skread: return code, updated session, the bytes written
into the caller's buffer, and the resulting `*n`. -/
structure ReadRes where
  ret : Ret
  fss : Fsstate
  out : List Nat
  n : Nat
  deriving DecidableEq, Repr

/-- p9skread: the producer side of the current phase.  `cap` is the
incoming `*n` (buffer capacity). -/
def p9skread (env : Env) (fss : Fsstate) (cap : Nat) : ReadRes :=
  let s := fss.ps
  match fss.phase with
  | Phase.CHaveChal =>
      if cap < CHALLEN then { ret := Ret.tooSmall CHALLEN, fss := fss, out := [], n := cap }
      else
        { ret := Ret.ok, fss := { fss with phase := Phase.CNeedTreq },
          out := bytesFrom s.cchal CHALLEN, n := CHALLEN }
  | Phase.SHaveTreq =>
      if cap < TICKREQLEN then { ret := Ret.tooSmall TICKREQLEN, fss := fss, out := [], n := cap }
      else
        { ret := Ret.ok, fss := { fss with phase := Phase.SNeedTicket },
          out := bytesFrom (env.codec.convTR2M s.tr) TICKREQLEN, n := TICKREQLEN }
  | Phase.CHaveTicket =>
      if cap < TICKETLEN + AUTHENTLEN then
        { ret := Ret.tooSmall (TICKETLEN + AUTHENTLEN), fss := fss, out := [], n := cap }
      else
        { ret := Ret.ok, fss := { fss with phase := Phase.CNeedAuth },
          out := bytesFrom s.tbuf (TICKETLEN + AUTHENTLEN), n := TICKETLEN + AUTHENTLEN }
  | Phase.SHaveAuth =>
      if cap < AUTHENTLEN then { ret := Ret.tooSmall AUTHENTLEN, fss := fss, out := [], n := cap }
      else
        let sec := bytesFrom (env.codec.des56to64 s.t.key) 8
        { ret := Ret.ok,
          fss := { fss with
                     phase := Phase.Established
                     haveai := true
                     ai := { fss.ai with
                               cuid := s.t.cuid, suid := s.t.suid,
                               secret := some sec, nsecret := 8 }
                     ps := { s with secret := some sec } },
          out := bytesFrom (s.tbuf.drop TICKETLEN) AUTHENTLEN, n := AUTHENTLEN }
  | _ => { ret := Ret.phaseErr, fss := fss, out := [], n := cap }

/-- The process-wide mutable globals the source touches: the shared
authenticator variable `auth` reused for both decode and encode. -/
structure Globals where
  gauth : Auth
  deriving DecidableEq, Repr

/-- Result of p9skwrite: return code, updated session, updated globals. -/
structure WriteRes where
  ret : Ret
  fss : Fsstate
  g : Globals
  deriving DecidableEq, Repr

/-- Dereference `s->key->priv`; the source dereferences unconditionally (a
server session always holds a key by the phase that uses it). -/
def keyPriv : Option Key → List Nat
  | some k => k.priv
  | none => []

/-- The findkey query the client-path write issues: format string
"role=client dom=%q %s" with the domain taken from the received ticket
request and the p9sk1 key prompt — and, because the source never calls
mkkeyinfo on this path, the uninitialized local Keyinfo. -/
def clientKeyQuery (env : Env) (tr : Ticketreq) : KeyQuery :=
  { ki := env.uninitKi, fmt := "role=client dom=%q %s",
    dom := some tr.authdom, prompt := some p9sk1keyprompt }

/-- p9skwrite: the consumer side of the current phase.  `a` is the
caller's buffer, of length `n`. -/
def p9skwrite (env : Env) (g : Globals) (fss : Fsstate) (a : List Nat) : WriteRes :=
  let s := fss.ps
  match fss.phase with
  | Phase.SNeedChal =>
      if a.length < CHALLEN then { ret := Ret.tooSmall CHALLEN, fss := fss, g := g }
      else
        { ret := Ret.ok,
          fss := { fss with
                     phase := Phase.SHaveTreq,
                     ps := { s with cchal := bytesFrom a CHALLEN } },
          g := g }
  | Phase.CNeedTreq =>
      if a.length < TICKREQLEN then { ret := Ret.tooSmall TICKREQLEN, fss := fss, g := g }
      else
        let tr := env.codec.convM2TR (a.take TICKREQLEN)
        let s1 := { s with tr := tr }
        let s2 := if s1.vers = Variant.flawed
                  then { s1 with cchal := bytesFrom tr.chal CHALLEN } else s1
        -- The source builds this attribute set from the session attributes
        -- but never attaches it to the Keyinfo handed to findkey (no
        -- mkkeyinfo call on this path); it only frees it again.
        let _attr := setattr (delattr fss.attr "role") "proto" "p9sk1"
        match env.findkey (clientKeyQuery env tr) with
        | none => { ret := Ret.failure, fss := { fss with ps := s2 }, g := g }
        | some k =>
            let s3 := { s2 with key := some k }
            match env.gettickets tr k with
            | none => { ret := Ret.failure, fss := { fss with ps := s3 }, g := g }
            | some tb =>
                let g2 : Globals := { gauth := { g.gauth with num := AuthAc } }
                let s4 := { s3 with
                  tbuf := bytesFrom (tb.drop TICKETLEN) TICKETLEN ++
                          bytesFrom (env.codec.convA2M g2.gauth s3.t.key) AUTHENTLEN }
                { ret := Ret.ok, fss := { fss with phase := Phase.CHaveTicket, ps := s4 },
                  g := g2 }
  | Phase.SNeedTicket =>
      if a.length < TICKETLEN + AUTHENTLEN then
        { ret := Ret.tooSmall (TICKETLEN + AUTHENTLEN), fss := fss, g := g }
      else
        let t := env.codec.convM2T (a.take TICKETLEN) (keyPriv s.key)
        let auIn := env.codec.convM2A ((a.drop TICKETLEN).take AUTHENTLEN) t.key
        let g2 : Globals := { gauth := { auIn with num := AuthAs } }
        let s2 := { s with
                      t := t,
                      tbuf := bytesFrom s.tbuf TICKETLEN ++
                              bytesFrom (env.codec.convA2M g2.gauth t.key) AUTHENTLEN }
        { ret := Ret.ok, fss := { fss with phase := Phase.SHaveAuth, ps := s2 }, g := g2 }
  | Phase.CNeedAuth =>
      if a.length < AUTHENTLEN then { ret := Ret.tooSmall AUTHENTLEN, fss := fss, g := g }
      else
        let g2 : Globals := { gauth := env.codec.convM2A (a.take AUTHENTLEN) s.t.key }
        { ret := Ret.ok,
          fss := { fss with
                     phase := Phase.Established, haveai := true,
                     ai := { fss.ai with cuid := s.t.cuid, suid := s.t.suid } },
          g := g2 }
  | _ => { ret := Ret.phaseErr, fss := fss, g := g }

/-- Release actions a p9skclose call performs: how many times the derived
secret is freed and the key record is closed. -/
structure CloseEffects where
  secretFrees : Nat
  keyCloses : Nat
  deriving DecidableEq, Repr

/-- p9skclose: frees the derived secret when present and closes the key
record when held.  The source neither clears those fields nor marks the
session closed before freeing the State, so the effects are a pure
function of the session value it is invoked on. -/
def p9skclose (fss : Fsstate) : CloseEffects :=
  { secretFrees := if fss.ps.secret.isSome then 1 else 0
  , keyCloses := if fss.ps.key.isSome then 1 else 0 }

/-- Two consecutive p9skclose calls on the same session: because the first
call leaves the secret and key fields as they were (it has no idempotence
guard), the second call observes the same fields and repeats the
releases. -/
def closeTwice (fss : Fsstate) : CloseEffects :=
  let e1 := p9skclose fss
  let e2 := p9skclose fss
  { secretFrees := e1.secretFrees + e2.secretFrees
  , keyCloses := e1.keyCloses + e2.keyCloses }

/-- Successor along the per-role phase sequences: exactly the phase each
successful operation of the source assigns. -/
def nextPhase : Phase → Option Phase
  | Phase.CHaveChal => some Phase.CNeedTreq
  | Phase.CNeedTreq => some Phase.CHaveTicket
  | Phase.CHaveTicket => some Phase.CNeedAuth
  | Phase.CNeedAuth => some Phase.Established
  | Phase.SNeedChal => some Phase.SHaveTreq
  | Phase.SHaveTreq => some Phase.SNeedTicket
  | Phase.SNeedTicket => some Phase.SHaveAuth
  | Phase.SHaveAuth => some Phase.Established
  | Phase.Established => none

/-- The fixed client phase sequence of the full variant. -/
def clientSeq : List Phase :=
  [Phase.CHaveChal, Phase.CNeedTreq, Phase.CHaveTicket, Phase.CNeedAuth, Phase.Established]

/-- The fixed server phase sequence of the full variant. -/
def serverSeq : List Phase :=
  [Phase.SNeedChal, Phase.SHaveTreq, Phase.SNeedTicket, Phase.SHaveAuth, Phase.Established]

/-- Phases at which p9skread has a case (all others hit the default
phaseerror arm). -/
def readSupported : Phase → Bool
  | Phase.CHaveChal => true
  | Phase.SHaveTreq => true
  | Phase.CHaveTicket => true
  | Phase.SHaveAuth => true
  | _ => false

/-- Required buffer size of each read phase (the `m` of the source). -/
def readReq : Phase → Nat
  | Phase.CHaveChal => CHALLEN
  | Phase.SHaveTreq => TICKREQLEN
  | Phase.CHaveTicket => TICKETLEN + AUTHENTLEN
  | Phase.SHaveAuth => AUTHENTLEN
  | _ => 0

/-- Phases at which p9skwrite has a case. -/
def writeSupported : Phase → Bool
  | Phase.SNeedChal => true
  | Phase.CNeedTreq => true
  | Phase.SNeedTicket => true
  | Phase.CNeedAuth => true
  | _ => false

/-- Required buffer size of each write phase. -/
def writeReq : Phase → Nat
  | Phase.SNeedChal => CHALLEN
  | Phase.CNeedTreq => TICKREQLEN
  | Phase.SNeedTicket => TICKETLEN + AUTHENTLEN
  | Phase.CNeedAuth => AUTHENTLEN
  | _ => 0

/-- Overwrite only the reserved speak-for field of a session. -/
def setSpeakfor (fss : Fsstate) (v : Int) : Fsstate :=
  { fss with ps := { fss.ps with speakfor := v } }

/-- The ticket the server decodes from the first TICKETLEN bytes of the
SNeedTicket input, using its own key material. -/
def decodedTicket (env : Env) (fss : Fsstate) (a : List Nat) : Ticket :=
  env.codec.convM2T (a.take TICKETLEN) (keyPriv fss.ps.key)

/-- The peer authenticator the server decodes from the trailing
AUTHENTLEN bytes of the SNeedTicket input, under the decoded ticket's
session key. -/
def decodedAuth (env : Env) (fss : Fsstate) (a : List Nat) : Auth :=
  env.codec.convM2A ((a.drop TICKETLEN).take AUTHENTLEN) (decodedTicket env fss a).key

/-- The authenticator bytes staged at offset TICKETLEN of the session's
ticket buffer after a write. -/
def stagedAuthBytes (env : Env) (g : Globals) (fss : Fsstate) (a : List Nat) : List Nat :=
  (((p9skwrite env g fss a).fss.ps.tbuf).drop TICKETLEN).take AUTHENTLEN

/-- Concrete key record used by witnesses. -/
def demoKey : Key :=
  { attr := [("user", "alice"), ("dom", "example")], priv := [1, 2, 3, 4, 5, 6, 7] }

/-- Concrete executable codec used by witnesses: an authenticator marshals
as its num, its id, then its chal, so unmarshal inverts marshal. -/
def demoCodec : Codec :=
  { convTR2M := fun tr => bytesFrom (tr.type :: tr.chal) TICKREQLEN
  , convM2TR := fun b =>
      { zeroTicketreq with
          type := b.headD 0, chal := (b.drop 1).take CHALLEN, authdom := "example" }
  , convM2T := fun b _k =>
      { num := b.headD 0, chal := (b.drop 1).take CHALLEN, cuid := "alice",
        suid := "srv", key := (b.drop 9).take DESKEYLEN }
  , convM2A := fun b _k => { num := b.headD 0, chal := b.drop 2, id := (b.drop 1).headD 0 }
  , convA2M := fun au _k => au.num :: au.id :: au.chal
  , des56to64 := fun k => bytesFrom k 8 }

/-- Concrete environment used by witnesses. -/
def demoEnv : Env :=
  { codec := demoCodec
  , findkey := fun _q => some demoKey
  , gettickets := fun _tr _k => some (List.replicate (TICKETLEN + TICKETLEN) 0)
  , randChal := [9, 9, 9, 9, 9, 9, 9, 9]
  , uninitKi := { attr := [], user := none } }

/-- Concrete client attribute set. -/
def clientAttr : List (String × String) := [("role", "client"), ("user", "bob")]

/-- Concrete server attribute set. -/
def serverAttr : List (String × String) := [("role", "server"), ("dom", "example")]

/-- Initial process globals. -/
def g0 : Globals := { gauth := zeroAuth }

/-- Fallback session value for extracting a successful init result. -/
def dummyFss : Fsstate :=
  { phase := Phase.Established, attr := [], ai := zeroAi, haveai := false, ps := zeroState }

/-- The session a successful demo initialization produces. -/
def runInit (variant : Variant) (attr : List (String × String)) : Fsstate :=
  ((p9skinit demoEnv variant attr).2).getD dummyFss

/-- Full-variant demo handshake, step by step: server init. -/
def runS0 : Fsstate := runInit Variant.full serverAttr

/-- Demo handshake: client init. -/
def runC0 : Fsstate := runInit Variant.full clientAttr

/-- Demo handshake: client reads its challenge. -/
def runRead1 : ReadRes := p9skread demoEnv runC0 CHALLEN

/-- Demo handshake: server consumes the challenge. -/
def runWrite1 : WriteRes := p9skwrite demoEnv g0 runS0 runRead1.out

/-- Demo handshake: server reads its ticket request. -/
def runRead2 : ReadRes := p9skread demoEnv runWrite1.fss TICKREQLEN

/-- Demo handshake: client consumes the ticket request. -/
def runWrite2 : WriteRes := p9skwrite demoEnv runWrite1.g runRead1.fss runRead2.out

/-- Demo handshake: client reads its ticket-plus-authenticator buffer. -/
def runRead3 : ReadRes := p9skread demoEnv runWrite2.fss (TICKETLEN + AUTHENTLEN)

/-- Demo handshake: server consumes the ticket-plus-authenticator pair. -/
def runWrite3 : WriteRes := p9skwrite demoEnv runWrite2.g runRead2.fss runRead3.out

/-- Demo handshake: server reads its authenticator, reaching the terminal
phase with its SessionResult. -/
def runRead4 : ReadRes := p9skread demoEnv runWrite3.fss AUTHENTLEN

/-- Demo handshake: client consumes the server authenticator, reaching the
terminal phase. -/
def runWrite4 : WriteRes := p9skwrite demoEnv runWrite3.g runRead3.fss runRead4.out

/-- Concrete server session at phase SHaveAuth. -/
def demoFssSHaveAuth : Fsstate :=
  { phase := Phase.SHaveAuth, attr := [], ai := zeroAi, haveai := false,
    ps := { zeroState with key := some demoKey } }

/-- Concrete client session at phase CNeedAuth. -/
def demoFssCNeedAuth : Fsstate :=
  { phase := Phase.CNeedAuth, attr := [], ai := zeroAi, haveai := false,
    ps := { zeroState with key := some demoKey } }

/-- Concrete server session at phase SNeedTicket. -/
def demoFssSNeedTicket : Fsstate :=
  { phase := Phase.SNeedTicket, attr := [], ai := zeroAi, haveai := false,
    ps := { zeroState with key := some demoKey } }

/-- Concrete flawed-variant client session at phase CNeedTreq. -/
def demoFssCNeedTreq : Fsstate :=
  { phase := Phase.CNeedTreq, attr := clientAttr, ai := zeroAi, haveai := false,
    ps := { zeroState with vers := Variant.flawed } }

/-- Codec whose authenticator decode yields a mis-purposed authenticator
with a challenge unrelated to any session challenge. -/
def badCodec : Codec :=
  { demoCodec with
      convM2A := fun _b _k => { num := 99, chal := List.replicate CHALLEN 7, id := 5 } }

/-- Environment built on the mis-purposing codec. -/
def badEnv : Env := { demoEnv with codec := badCodec }

/-- Concrete terminal session holding a key record and a derived secret. -/
def demoClosedFss : Fsstate :=
  { phase := Phase.Established, attr := [], ai := zeroAi, haveai := true,
    ps := { zeroState with
              key := some demoKey, secret := some [1, 2, 3, 4, 5, 6, 7, 8] } }

/-- An authenticator-sized input buffer. -/
def demoAuthBytes : List Nat := List.replicate AUTHENTLEN 0

/-- A ticket-plus-authenticator-sized input buffer. -/
def demoTicketAuthBytes : List Nat := List.replicate (TICKETLEN + AUTHENTLEN) 0

/-- A ticket-request-sized input buffer. -/
def demoTreqBytes : List Nat := List.replicate TICKREQLEN 3

/-- Copying m bytes out of a buffer yields exactly m bytes. -/
theorem bytesFrom_length (buf : List Nat) (m : Nat) : (bytesFrom buf m).length = m := by
  simp [bytesFrom]

/-- Copying exactly the length of the buffer is the identity. -/
theorem bytesFrom_eq_of_length (buf : List Nat) (m : Nat) (h : buf.length = m) :
    bytesFrom buf m = buf := by
  subst h
  simp [bytesFrom]

/-- C5: invoking a read or write operation in a phase that does not
support it returns a PhaseError and leaves the whole session (and, for
write, the process globals) unchanged. -/
theorem c5_unsupported_phase_error (env : Env) (g : Globals) (fss : Fsstate)
    (cap : Nat) (a : List Nat) :
    (readSupported fss.phase = false →
      p9skread env fss cap = { ret := Ret.phaseErr, fss := fss, out := [], n := cap }) ∧
    (writeSupported fss.phase = false →
      p9skwrite env g fss a = { ret := Ret.phaseErr, fss := fss, g := g }) := by
  obtain ⟨ph, attr, ai, hai, ps⟩ := fss
  cases ph <;> simp [readSupported, writeSupported, p9skread, p9skwrite]

/-- C5 witness: a read at a write-only phase and a write at a read-only
phase both return PhaseError and change nothing. -/
theorem c5_unsupported_phase_error_witness :
    p9skread demoEnv demoFssCNeedAuth CHALLEN =
      { ret := Ret.phaseErr, fss := demoFssCNeedAuth, out := [], n := CHALLEN } ∧
    p9skwrite demoEnv g0 demoFssSHaveAuth demoAuthBytes =
      { ret := Ret.phaseErr, fss := demoFssSHaveAuth, g := g0 } := by
  refine ⟨?_, ?_⟩
  · exact (c5_unsupported_phase_error demoEnv g0 demoFssCNeedAuth CHALLEN demoAuthBytes).1 rfl
  · exact (c5_unsupported_phase_error demoEnv g0 demoFssSHaveAuth CHALLEN demoAuthBytes).2 rfl

/-- C6: in a valid phase, a buffer strictly smaller than the phase's
required constant makes the operation return a too-small error carrying
exactly the required size and leave the session, the globals and the
reported count unchanged; a sufficient buffer makes a read succeed,
produce exactly the required number of bytes and report that count. -/
theorem c6_buffer_size_contract (env : Env) (g : Globals) (fss : Fsstate)
    (cap : Nat) (a : List Nat) :
    (readSupported fss.phase = true → cap < readReq fss.phase →
      p9skread env fss cap =
        { ret := Ret.tooSmall (readReq fss.phase), fss := fss, out := [], n := cap }) ∧
    (readSupported fss.phase = true → readReq fss.phase ≤ cap →
      (p9skread env fss cap).ret = Ret.ok ∧
      (p9skread env fss cap).out.length = readReq fss.phase ∧
      (p9skread env fss cap).n = readReq fss.phase) ∧
    (writeSupported fss.phase = true → a.length < writeReq fss.phase →
      p9skwrite env g fss a =
        { ret := Ret.tooSmall (writeReq fss.phase), fss := fss, g := g }) := by
  obtain ⟨ph, attr, ai, hai, ps⟩ := fss
  cases ph <;>
    simp only [readSupported, writeSupported, readReq, writeReq, p9skread, p9skwrite] <;>
    refine ⟨?_, ?_, ?_⟩ <;>
    intro h1 h2 <;>
    simp_all [bytesFrom_length] <;>
    first
      | rfl
      | (rw [if_neg (by omega)] ; simp [bytesFrom_length])

/-- C6 witness: a one-byte-short read reports the exact required size and
changes nothing; a sufficient read yields exactly the required bytes. -/
theorem c6_buffer_size_contract_witness :
    p9skread demoEnv demoFssSHaveAuth (AUTHENTLEN - 1) =
      { ret := Ret.tooSmall AUTHENTLEN, fss := demoFssSHaveAuth, out := [],
        n := AUTHENTLEN - 1 } ∧
    (p9skread demoEnv demoFssSHaveAuth AUTHENTLEN).out.length = AUTHENTLEN ∧
    p9skwrite demoEnv g0 demoFssCNeedAuth (List.replicate (AUTHENTLEN - 1) 0) =
      { ret := Ret.tooSmall AUTHENTLEN, fss := demoFssCNeedAuth, g := g0 } := by
  refine ⟨?_, ?_, ?_⟩
  · exact (c6_buffer_size_contract demoEnv g0 demoFssSHaveAuth (AUTHENTLEN - 1)
      demoAuthBytes).1 rfl (by decide)
  · exact ((c6_buffer_size_contract demoEnv g0 demoFssSHaveAuth AUTHENTLEN
      demoAuthBytes).2.1 rfl (by decide)).2.1
  · exact (c6_buffer_size_contract demoEnv g0 demoFssCNeedAuth AUTHENTLEN
      (List.replicate (AUTHENTLEN - 1) 0)).2.2 rfl (by decide)

/-- C4: every read or write either fails leaving the phase unchanged or
succeeds moving the phase to its unique successor; the successor relation
walks exactly the two fixed per-role sequences and stops at Established;
initialization starts the client at CHaveChal (full) or CNeedTreq
(flawed) and the server at SNeedChal (full) or SHaveTreq (flawed) — so no
reachable execution revisits or skips a phase. -/
theorem c4_phase_monotone (env : Env) (g : Globals) (fss : Fsstate) (cap : Nat)
    (a : List Nat) (variant : Variant) (attr : List (String × String)) (fss0 : Fsstate)
    (hinit : (p9skinit env variant attr).2 = some fss0) :
    ((p9skread env fss cap).ret = Ret.ok ∧
        nextPhase fss.phase = some (p9skread env fss cap).fss.phase ∨
      (p9skread env fss cap).ret ≠ Ret.ok ∧
        (p9skread env fss cap).fss.phase = fss.phase) ∧
    ((p9skwrite env g fss a).ret = Ret.ok ∧
        nextPhase fss.phase = some (p9skwrite env g fss a).fss.phase ∨
      (p9skwrite env g fss a).ret ≠ Ret.ok ∧
        (p9skwrite env g fss a).fss.phase = fss.phase) ∧
    List.Chain' (fun p q => nextPhase p = some q) clientSeq ∧
    List.Chain' (fun p q => nextPhase p = some q) serverSeq ∧
    nextPhase Phase.Established = none ∧
    (isclient (strfindattr attr "role") = 1 →
      (variant = Variant.full → fss0.phase = Phase.CHaveChal) ∧
      (variant = Variant.flawed → fss0.phase = Phase.CNeedTreq)) ∧
    (isclient (strfindattr attr "role") = 0 →
      (variant = Variant.full → fss0.phase = Phase.SNeedChal) ∧
      (variant = Variant.flawed → fss0.phase = Phase.SHaveTreq)) := by
  refine ⟨?_, ?_, by simp [clientSeq, nextPhase], by simp [serverSeq, nextPhase], rfl, ?_, ?_⟩
  · obtain ⟨ph, attr1, ai, hai, ps⟩ := fss
    cases ph <;> simp only [p9skread] <;> (repeat' split) <;> simp [nextPhase]
  · obtain ⟨ph, attr1, ai, hai, ps⟩ := fss
    cases ph <;> simp only [p9skwrite] <;> (repeat' split) <;> simp [nextPhase]
  · intro hc1
    cases variant <;>
      simp [p9skinit, hc1] at hinit <;>
      simp [← hinit]
  · intro hc0
    rcases hk : env.findkey
        { ki := { mkkeyinfo (setattr attr "proto" "p9sk1") with user := none },
          fmt := "user? dom?", dom := none, prompt := none } with _ | k <;>
      cases variant <;>
      simp [p9skinit, hc0, hk] at hinit <;>
      simp [← hinit]

/-- C4 witness: a successful full-variant server initialization starts at
SNeedChal, instantiating the statement with its hypothesis discharged. -/
theorem c4_phase_monotone_witness :
    (p9skinit demoEnv Variant.full serverAttr).2 = some runS0 ∧
    runS0.phase = Phase.SNeedChal := by
  have h : (p9skinit demoEnv Variant.full serverAttr).2 = some runS0 := by decide
  have h2 := c4_phase_monotone demoEnv g0 runS0 CHALLEN demoAuthBytes Variant.full
    serverAttr runS0 h
  exact ⟨h, (h2.2.2.2.2.2.2 (by decide)).1 rfl⟩

/-- C10: the reserved speak-for field is dead state — read, write and
close commute with overwriting it (so no result depends on its value),
no operation changes it, and initialization leaves it zero. -/
theorem c10_speakfor_unused (env : Env) (g : Globals) (fss : Fsstate) (cap : Nat)
    (a : List Nat) (v : Int) :
    p9skread env (setSpeakfor fss v) cap =
      { p9skread env fss cap with fss := setSpeakfor (p9skread env fss cap).fss v } ∧
    p9skwrite env g (setSpeakfor fss v) a =
      { p9skwrite env g fss a with fss := setSpeakfor (p9skwrite env g fss a).fss v } ∧
    p9skclose (setSpeakfor fss v) = p9skclose fss ∧
    (p9skread env fss cap).fss.ps.speakfor = fss.ps.speakfor ∧
    (p9skwrite env g fss a).fss.ps.speakfor = fss.ps.speakfor ∧
    (∀ variant attr fss0, (p9skinit env variant attr).2 = some fss0 →
      fss0.ps.speakfor = 0) := by
  obtain ⟨ph, attr1, ai, hai, ps⟩ := fss
  refine ⟨?_, ?_, rfl, ?_, ?_, ?_⟩
  · cases ph <;> simp only [p9skread, setSpeakfor] <;> (repeat' split) <;> simp
  · cases ph <;> simp only [p9skwrite, setSpeakfor] <;> (repeat' split) <;> simp
  · cases ph <;> simp only [p9skread] <;> (repeat' split) <;> simp
  · cases ph <;> simp only [p9skwrite] <;> (repeat' split) <;> simp
  · intro variant attr fss0 hinit
    by_cases hneg : isclient (strfindattr attr "role") < 0
    · simp [p9skinit, hneg] at hinit
    · by_cases hc1 : isclient (strfindattr attr "role") = 1
      · cases variant <;> simp [p9skinit, hneg, hc1] at hinit <;>
          simp [← hinit, zeroState]
      · rcases hk : env.findkey
            { ki := { mkkeyinfo (setattr attr "proto" "p9sk1") with user := none },
              fmt := "user? dom?", dom := none, prompt := none } with _ | k <;>
          cases variant <;> simp [p9skinit, hneg, hc1, hk] at hinit <;>
          simp [← hinit, zeroState]

/-- C10 witness: the frame property instantiated at a concrete session,
including a successful concrete initialization. -/
theorem c10_speakfor_unused_witness :
    p9skclose (setSpeakfor demoClosedFss 7) = p9skclose demoClosedFss ∧
    runS0.ps.speakfor = 0 := by
  have h := c10_speakfor_unused demoEnv g0 demoClosedFss CHALLEN demoAuthBytes 7
  exact ⟨h.2.2.1, h.2.2.2.2.2 Variant.full serverAttr runS0 (by decide)⟩

/-- C7: under the flawed variant the client generates no challenge of its
own — client initialization leaves the channel-challenge buffer zeroed;
consuming the ticket request overwrites it with the challenge carried in
the decoded request (whatever its decoder); and flawed server
initialization sets its channel-challenge copy equal to its own ticket
request challenge. -/
theorem c7_flawed_challenge (env : Env) (g : Globals) (fss : Fsstate)
    (a : List Nat) (attrC attrS : List (String × String)) (fssC fssS : Fsstate)
    (hcli : isclient (strfindattr attrC "role") = 1)
    (hC : (p9skinit env Variant.flawed attrC).2 = some fssC)
    (hsrv : isclient (strfindattr attrS "role") = 0)
    (hS : (p9skinit env Variant.flawed attrS).2 = some fssS)
    (hph : fss.phase = Phase.CNeedTreq) (hv : fss.ps.vers = Variant.flawed)
    (hlen : TICKREQLEN ≤ a.length) :
    fssC.ps.cchal = List.replicate CHALLEN 0 ∧
    (p9skwrite env g fss a).fss.ps.cchal =
      bytesFrom (env.codec.convM2TR (a.take TICKREQLEN)).chal CHALLEN ∧
    (p9skwrite env g fss a).fss.ps.tr = env.codec.convM2TR (a.take TICKREQLEN) ∧
    ((env.codec.convM2TR (a.take TICKREQLEN)).chal.length = CHALLEN →
      (p9skwrite env g fss a).fss.ps.cchal =
        (env.codec.convM2TR (a.take TICKREQLEN)).chal) ∧
    fssS.ps.cchal = fssS.ps.tr.chal := by
  obtain ⟨ph, attr1, ai, hai, ps⟩ := fss
  simp only [Fsstate.phase] at hph
  simp only [Fsstate.ps] at hv
  subst hph
  refine ⟨?_, ?_, ?_, ?_, ?_⟩
  · simp [p9skinit, hcli] at hC
    simp [← hC, zeroState]
  · simp only [p9skwrite]
    rw [if_neg (by omega)]
    simp only [hv]
    rcases hk : env.findkey (clientKeyQuery env (env.codec.convM2TR (a.take TICKREQLEN)))
        with _ | k <;>
      simp [hk] <;>
      rcases ht : env.gettickets (env.codec.convM2TR (a.take TICKREQLEN)) k with _ | tb <;>
      simp [ht]
  · simp only [p9skwrite]
    rw [if_neg (by omega)]
    simp only [hv]
    rcases hk : env.findkey (clientKeyQuery env (env.codec.convM2TR (a.take TICKREQLEN)))
        with _ | k <;>
      simp [hk] <;>
      rcases ht : env.gettickets (env.codec.convM2TR (a.take TICKREQLEN)) k with _ | tb <;>
      simp [ht]
  · intro hchlen
    simp only [p9skwrite]
    rw [if_neg (by omega)]
    simp only [hv]
    rcases hk : env.findkey (clientKeyQuery env (env.codec.convM2TR (a.take TICKREQLEN)))
        with _ | k <;>
      simp [hk, bytesFrom_eq_of_length _ _ hchlen] <;>
      rcases ht : env.gettickets (env.codec.convM2TR (a.take TICKREQLEN)) k with _ | tb <;>
      simp [ht, bytesFrom_eq_of_length _ _ hchlen]
  · rcases hk : env.findkey
        { ki := { mkkeyinfo (setattr attrS "proto" "p9sk1") with user := none },
          fmt := "user? dom?", dom := none, prompt := none } with _ | k <;>
      simp [p9skinit, hsrv, hk] at hS
    simp [← hS, bytesFrom_eq_of_length _ _ (bytesFrom_length _ _)]

set_option maxRecDepth 8192 in
/-- C7 witness: the flawed-variant statement instantiated at a concrete
flawed client session consuming a concrete ticket request, with a
concrete flawed server initialization. -/
theorem c7_flawed_challenge_witness :
    (runInit Variant.flawed clientAttr).ps.cchal = List.replicate CHALLEN 0 ∧
    (p9skwrite demoEnv g0 demoFssCNeedTreq demoTreqBytes).fss.ps.cchal =
      (demoEnv.codec.convM2TR (demoTreqBytes.take TICKREQLEN)).chal ∧
    (runInit Variant.flawed serverAttr).ps.cchal =
      (runInit Variant.flawed serverAttr).ps.tr.chal := by
  have h := c7_flawed_challenge demoEnv g0 demoFssCNeedTreq demoTreqBytes
    clientAttr serverAttr (runInit Variant.flawed clientAttr)
    (runInit Variant.flawed serverAttr)
    (by decide) (by decide) (by decide) (by decide) rfl rfl (by decide)
  exact ⟨h.1, h.2.2.2.1 (by decide), h.2.2.2.2⟩

/-- Slicing the second component out of a two-part staging buffer. -/
theorem drop_take_append (xs ys : List Nat) (m n : Nat)
    (hx : xs.length = m) (hy : ys.length = n) :
    ((xs ++ ys).drop m).take n = ys := by
  subst hx
  subst hy
  simp

set_option maxRecDepth 16384 in
/-- C1 counterexample: the demo client/server pair runs the full variant
to completion (every step returns ok and both sides reach Established),
the server's SessionResult carries an 8-byte secret, yet the client's
terminal write materializes no secret at all — so the two sides do not
hold equal 8-byte secrets. -/
theorem c1_roundtrip_counterexample :
    runRead1.ret = Ret.ok ∧ runWrite1.ret = Ret.ok ∧ runRead2.ret = Ret.ok ∧
    runWrite2.ret = Ret.ok ∧ runRead3.ret = Ret.ok ∧ runWrite3.ret = Ret.ok ∧
    runRead4.ret = Ret.ok ∧ runWrite4.ret = Ret.ok ∧
    runRead4.fss.phase = Phase.Established ∧ runWrite4.fss.phase = Phase.Established ∧
    runRead4.fss.ai.nsecret = 8 ∧ runRead4.fss.ai.secret.isSome = true ∧
    runWrite4.fss.ai.secret = none ∧ runWrite4.fss.ai.nsecret = 0 ∧
    runWrite4.fss.ps.secret = none := by
  decide

/-- C1 amended: only the server's terminal read materializes an 8-byte
secret, derived from the ticket's session key by 56-to-64-bit expansion;
the client's terminal write records the identity pair and marks the
session authenticated but leaves every secret field of its SessionResult
exactly as it was (no secret is materialized). -/
theorem c1_terminal_secret (env : Env) (g : Globals) (fssS fssC : Fsstate)
    (cap : Nat) (a : List Nat)
    (hS : fssS.phase = Phase.SHaveAuth) (hcap : AUTHENTLEN ≤ cap)
    (hC : fssC.phase = Phase.CNeedAuth) (ha : AUTHENTLEN ≤ a.length) :
    ((p9skread env fssS cap).ret = Ret.ok ∧
      (p9skread env fssS cap).fss.ai.nsecret = 8 ∧
      (p9skread env fssS cap).fss.ai.secret =
        some (bytesFrom (env.codec.des56to64 fssS.ps.t.key) 8) ∧
      (p9skread env fssS cap).fss.ps.secret =
        some (bytesFrom (env.codec.des56to64 fssS.ps.t.key) 8) ∧
      (bytesFrom (env.codec.des56to64 fssS.ps.t.key) 8).length = 8) ∧
    ((p9skwrite env g fssC a).ret = Ret.ok ∧
      (p9skwrite env g fssC a).fss.haveai = true ∧
      (p9skwrite env g fssC a).fss.ai.cuid = fssC.ps.t.cuid ∧
      (p9skwrite env g fssC a).fss.ai.suid = fssC.ps.t.suid ∧
      (p9skwrite env g fssC a).fss.ai.secret = fssC.ai.secret ∧
      (p9skwrite env g fssC a).fss.ai.nsecret = fssC.ai.nsecret ∧
      (p9skwrite env g fssC a).fss.ps.secret = fssC.ps.secret) := by
  obtain ⟨phS, attrS1, aiS, haiS, psS⟩ := fssS
  obtain ⟨phC, attrC1, aiC, haiC, psC⟩ := fssC
  simp only [Fsstate.phase] at hS hC
  subst hS
  subst hC
  refine ⟨?_, ?_⟩ <;>
    simp only [p9skread, p9skwrite] <;>
    rw [if_neg (by omega)] <;>
    simp [bytesFrom_length]

/-- C1 witness: the amended statement at a concrete terminal server read
and terminal client write. -/
theorem c1_terminal_secret_witness :
    demoFssSHaveAuth.phase = Phase.SHaveAuth ∧
    (p9skread demoEnv demoFssSHaveAuth AUTHENTLEN).fss.ai.nsecret = 8 ∧
    (p9skwrite demoEnv g0 demoFssCNeedAuth demoAuthBytes).fss.ai.secret =
      demoFssCNeedAuth.ai.secret := by
  have h := c1_terminal_secret demoEnv g0 demoFssSHaveAuth demoFssCNeedAuth
    AUTHENTLEN demoAuthBytes rfl (by decide) rfl (by decide)
  exact ⟨rfl, h.1.2.1, h.2.2.2.2.2.1⟩

/-- C2 counterexample: a decoded peer authenticator whose purpose tag is
not the expected client-asserting tag and whose embedded challenge
differs from the session's channel challenge is still accepted by the
server's need-ticket write, which returns ok and advances the phase
instead of failing. -/
theorem c2_mismatched_authenticator_accepted :
    (badEnv.codec.convM2A ((demoTicketAuthBytes.drop TICKETLEN).take AUTHENTLEN)
        (badEnv.codec.convM2T (demoTicketAuthBytes.take TICKETLEN)
          (keyPriv demoFssSNeedTicket.ps.key)).key).num ≠ AuthAc ∧
    (badEnv.codec.convM2A ((demoTicketAuthBytes.drop TICKETLEN).take AUTHENTLEN)
        (badEnv.codec.convM2T (demoTicketAuthBytes.take TICKETLEN)
          (keyPriv demoFssSNeedTicket.ps.key)).key).chal ≠
      demoFssSNeedTicket.ps.cchal ∧
    (p9skwrite badEnv g0 demoFssSNeedTicket demoTicketAuthBytes).ret = Ret.ok ∧
    (p9skwrite badEnv g0 demoFssSNeedTicket demoTicketAuthBytes).fss.phase =
      Phase.SHaveAuth := by
  decide

/-- C2 amended: the write operations that consume a peer authenticator
perform no check of its purpose tag or embedded challenge — with a
correctly sized buffer they return ok and advance phase for every
environment, hence for every decoded authenticator value. -/
theorem c2_no_authenticator_check (env : Env) (g : Globals) (fssS fssC : Fsstate)
    (aS aC : List Nat)
    (hS : fssS.phase = Phase.SNeedTicket) (haS : TICKETLEN + AUTHENTLEN ≤ aS.length)
    (hC : fssC.phase = Phase.CNeedAuth) (haC : AUTHENTLEN ≤ aC.length) :
    ((p9skwrite env g fssS aS).ret = Ret.ok ∧
      (p9skwrite env g fssS aS).fss.phase = Phase.SHaveAuth) ∧
    ((p9skwrite env g fssC aC).ret = Ret.ok ∧
      (p9skwrite env g fssC aC).fss.phase = Phase.Established) := by
  obtain ⟨phS, attrS1, aiS, haiS, psS⟩ := fssS
  obtain ⟨phC, attrC1, aiC, haiC, psC⟩ := fssC
  simp only [Fsstate.phase] at hS hC
  subst hS
  subst hC
  refine ⟨?_, ?_⟩ <;>
    simp only [p9skwrite] <;>
    rw [if_neg (by omega)] <;>
    simp

/-- C2 witness: the amended statement at concrete sessions and buffers. -/
theorem c2_no_authenticator_check_witness :
    (p9skwrite demoEnv g0 demoFssSNeedTicket demoTicketAuthBytes).ret = Ret.ok ∧
    (p9skwrite demoEnv g0 demoFssCNeedAuth demoAuthBytes).fss.phase =
      Phase.Established := by
  have h := c2_no_authenticator_check demoEnv g0 demoFssSNeedTicket demoFssCNeedAuth
    demoTicketAuthBytes demoAuthBytes rfl (by decide) rfl (by decide)
  exact ⟨h.1.1, h.2.2⟩

/-- C3 (supporting theorem for the code bug): in the client write at
CNeedTreq the findkey query carries the uninitialized local Keyinfo (no
mkkeyinfo call happens on that path), and the write's entire outcome is
independent of the session's attribute set, which only passes through
unchanged; key-resolution and ticket-acquisition failures do fail the
operation without advancing the phase. -/
theorem c3_key_query_ignores_session_attrs (env : Env) (g : Globals) (fss : Fsstate)
    (a : List Nat) (attr2 : List (String × String))
    (h : fss.phase = Phase.CNeedTreq) :
    (clientKeyQuery env (env.codec.convM2TR (a.take TICKREQLEN))).ki = env.uninitKi ∧
    (p9skwrite env g { fss with attr := attr2 } a).ret = (p9skwrite env g fss a).ret ∧
    (p9skwrite env g { fss with attr := attr2 } a).fss =
      { (p9skwrite env g fss a).fss with attr := attr2 } ∧
    (p9skwrite env g { fss with attr := attr2 } a).g = (p9skwrite env g fss a).g ∧
    (TICKREQLEN ≤ a.length →
      env.findkey (clientKeyQuery env (env.codec.convM2TR (a.take TICKREQLEN))) = none →
      (p9skwrite env g fss a).ret = Ret.failure ∧
      (p9skwrite env g fss a).fss.phase = fss.phase) ∧
    (TICKREQLEN ≤ a.length →
      ∀ k, env.findkey (clientKeyQuery env (env.codec.convM2TR (a.take TICKREQLEN))) =
          some k →
        env.gettickets (env.codec.convM2TR (a.take TICKREQLEN)) k = none →
        (p9skwrite env g fss a).ret = Ret.failure ∧
        (p9skwrite env g fss a).fss.phase = fss.phase) := by
  obtain ⟨ph, attr1, ai, hai, ps⟩ := fss
  simp only [Fsstate.phase] at h
  subst h
  refine ⟨rfl, ?_, ?_, ?_, ?_, ?_⟩
  · simp only [p9skwrite] ; (repeat' split) <;> simp_all
  · simp only [p9skwrite] ; (repeat' split) <;> simp_all
  · simp only [p9skwrite] ; (repeat' split) <;> simp_all
  · intro hlen hnone
    simp only [p9skwrite]
    rw [if_neg (by omega)]
    simp [hnone]
  · intro hlen k hsome hnone
    simp only [p9skwrite]
    rw [if_neg (by omega)]
    simp [hsome, hnone]

set_option maxRecDepth 8192 in
/-- C3 witness: the supporting theorem at a concrete client session, with
two visibly different session attribute sets yielding the same write
outcome. -/
theorem c3_key_query_ignores_session_attrs_witness :
    (clientKeyQuery demoEnv (demoEnv.codec.convM2TR (demoTreqBytes.take TICKREQLEN))).ki =
      demoEnv.uninitKi ∧
    (p9skwrite demoEnv g0 { demoFssCNeedTreq with attr := serverAttr } demoTreqBytes).ret =
      (p9skwrite demoEnv g0 demoFssCNeedTreq demoTreqBytes).ret := by
  have h := c3_key_query_ignores_session_attrs demoEnv g0 demoFssCNeedTreq demoTreqBytes
    serverAttr rfl
  exact ⟨h.1, h.2.1⟩

/-- C8 counterexample: on a session holding both a key record and a
derived secret, two close calls on the same session release the key
record twice and free the secret twice — not exactly once. -/
theorem c8_double_close_counterexample :
    demoClosedFss.ps.key.isSome = true ∧ demoClosedFss.ps.secret.isSome = true ∧
    (closeTwice demoClosedFss).keyCloses = 2 ∧
    (closeTwice demoClosedFss).secretFrees = 2 := by
  decide

/-- C8 amended: a single close releases the held key record and the held
derived secret exactly once each; close has no idempotence guard and
leaves both fields in place, so a second close on the same session
repeats both releases. -/
theorem c8_close_release_counts (fss : Fsstate)
    (hk : fss.ps.key.isSome = true) (hs : fss.ps.secret.isSome = true) :
    (p9skclose fss).keyCloses = 1 ∧ (p9skclose fss).secretFrees = 1 ∧
    (closeTwice fss).keyCloses = 2 ∧ (closeTwice fss).secretFrees = 2 := by
  simp [p9skclose, closeTwice, hk, hs]

/-- C8 witness: the amended statement at the concrete terminal session. -/
theorem c8_close_release_counts_witness :
    (p9skclose demoClosedFss).keyCloses = 1 ∧
    (closeTwice demoClosedFss).keyCloses = 2 := by
  have h := c8_close_release_counts demoClosedFss (by decide) (by decide)
  exact ⟨h.1, h.2.2.1⟩

/-- C9: the authenticator the server stages at SNeedTicket is exactly the
incoming authenticator re-encoded with only its purpose field replaced by
the server-asserting tag: the staged bytes are the encoding of the
decoded incoming authenticator with num set to AuthAs, and (whenever the
codec's decode inverts its encode and the encoding is
authenticator-sized) decoding the staged bytes returns the incoming
authenticator's challenge and id unchanged with num = AuthAs. -/
theorem c9_server_auth_passthrough (env : Env) (g : Globals) (fss : Fsstate)
    (a : List Nat)
    (h : fss.phase = Phase.SNeedTicket) (ha : TICKETLEN + AUTHENTLEN ≤ a.length)
    (hrt : ∀ au k, env.codec.convM2A (env.codec.convA2M au k) k = au)
    (hlen : (env.codec.convA2M { decodedAuth env fss a with num := AuthAs }
        (decodedTicket env fss a).key).length = AUTHENTLEN) :
    stagedAuthBytes env g fss a =
      env.codec.convA2M { decodedAuth env fss a with num := AuthAs }
        (decodedTicket env fss a).key ∧
    env.codec.convM2A (stagedAuthBytes env g fss a) (decodedTicket env fss a).key =
      { decodedAuth env fss a with num := AuthAs } ∧
    (env.codec.convM2A (stagedAuthBytes env g fss a)
        (decodedTicket env fss a).key).chal = (decodedAuth env fss a).chal ∧
    (env.codec.convM2A (stagedAuthBytes env g fss a)
        (decodedTicket env fss a).key).id = (decodedAuth env fss a).id ∧
    (env.codec.convM2A (stagedAuthBytes env g fss a)
        (decodedTicket env fss a).key).num = AuthAs := by
  have h1 : stagedAuthBytes env g fss a =
      env.codec.convA2M { decodedAuth env fss a with num := AuthAs }
        (decodedTicket env fss a).key := by
    obtain ⟨ph, attr1, ai, hai, ps⟩ := fss
    simp only [Fsstate.phase] at h
    subst h
    simp only [stagedAuthBytes, decodedAuth, decodedTicket, p9skwrite, Fsstate.ps] at hlen ⊢
    rw [if_neg (by omega)]
    rw [drop_take_append _ _ _ _ (bytesFrom_length _ _) (bytesFrom_length _ _)]
    exact bytesFrom_eq_of_length _ _ hlen
  refine ⟨h1, ?_, ?_, ?_, ?_⟩ <;> rw [h1, hrt]

/-- C9 witness: the passthrough statement at a concrete server session
and input, under the concrete invertible demo codec. -/
theorem c9_server_auth_passthrough_witness :
    (demoEnv.codec.convM2A
        (stagedAuthBytes demoEnv g0 demoFssSNeedTicket demoTicketAuthBytes)
        (decodedTicket demoEnv demoFssSNeedTicket demoTicketAuthBytes).key).num =
      AuthAs ∧
    (demoEnv.codec.convM2A
        (stagedAuthBytes demoEnv g0 demoFssSNeedTicket demoTicketAuthBytes)
        (decodedTicket demoEnv demoFssSNeedTicket demoTicketAuthBytes).key).chal =
      (decodedAuth demoEnv demoFssSNeedTicket demoTicketAuthBytes).chal := by
  have h := c9_server_auth_passthrough demoEnv g0 demoFssSNeedTicket demoTicketAuthBytes
    rfl (by decide) (fun au k => rfl) (by decide)
  exact ⟨h.2.2.2.2, h.2.2.1⟩

end P9SK
